import Mathlib

/-!
Shallow embedding of `retrieve_climate_data_from_prism.py`.

The script retrieves daily PRISM climate data from the RCC ACIS web service
for a list of coordinates read from CSV files, and appends the results to a
timestamped CSV artifact.  We model:

* `import_coordinates` — the coordinate loader (directory listing, the
  per-file assignment loop, the two `except` handlers, and the final
  `return csv_data_as_dict`, which raises `UnboundLocalError` when the
  variable was never assigned);
* the date-format check `re.fullmatch(r'\d\x7b4\x7d-\d\x7b2\x7d-\d\x7b2\x7d', s)`
  used by `get_start_date_input` / `get_end_date_input`;
* `fetch_prism_daily_data` — the header logic, the per-coordinate loop with
  its `requests.post` call, the 200/non-200 branch, the CSV row writes, the
  console prints, and exception propagation (timeouts and JSON parse errors
  are not caught by the script and abort the run).

File-system and console effects are modelled as an explicit event trace.
The remote service is an oracle `Coordinate → Outcome`.  Directory
bootstrapping (`os.makedirs`) and the interactive prompt loop are out of
scope.  JSON scalars are modelled exactly (decimal mantissa/exponent), not
as floating point.  Python's `\d` matches Unicode decimal digits; we model
the ASCII range, which covers every behaviour the properties mention.
-/

namespace Prism

/-- A JSON scalar appearing in a service data row: a string, or a decimal
number `mantissa / 10 ^ exp10` (so `0.1` is `num 1 1`, `32` is `num 32 0`). -/
inductive JsonVal where
  | str (s : String)
  | num (mantissa : Int) (exp10 : Nat)
  deriving DecidableEq

/-- One CSV coordinate row as produced by `csv.DictReader`: the fields
`id`, `lat`, `lon` (all strings in the Python program). -/
structure Coordinate where
  id  : String
  lat : String
  lon : String
  deriving DecidableEq

/-- The outcome of `requests.post` for one coordinate: either a response
with a status code, a parse of `response.json()['data']` (an `Except`,
since a 200 body may fail to parse as JSON or lack the `data` key), and
the raw `response.text`; or a timeout exception. -/
inductive Outcome where
  | resp (status : Nat) (dataField : Except String (List (List JsonVal))) (text : String)
  | timeout

/-- Exceptions the script can raise mid-run (none are caught inside
`fetch_prism_daily_data`). -/
inductive PyError where
  | timeoutError
  | parseError (msg : String)
  deriving DecidableEq

/-- Observable effects of `fetch_prism_daily_data`, in program order:
opening the artifact in append mode, writing one CSV row, issuing one
remote query, the three `print` statements, flushing, and closing the
artifact (the `with` block closes even when an exception propagates). -/
inductive Event where
  | openAppend
  | writeRow (r : List JsonVal)
  | post (c : Coordinate)
  | printFetch (id : String)
  | printErr (lon lat : String) (status : Nat) (text : String)
  | printDone
  | flush
  | close
  deriving DecidableEq

/-- The exact console text of each print event, per the f-strings in the
source. -/
def renderEvent : Event → Option String
  | Event.printFetch id => some ("Fetching data for id " ++ id ++ "...")
  | Event.printErr lon lat status text =>
      some ("Error for coordinates " ++ lon ++ ", " ++ lat ++ ": " ++
        toString status ++ ", " ++ text)
  | Event.printDone =>
      some "\nTask complete. Check the \x27.results\x27 subdirectory for CSV output.\n"
  | _ => none

/-- The body of the `for entry in coordinates` loop for one entry:
`requests.post` (the `post` event), then on status 200 parse the JSON and
write one row per data row, each prefixed with `str(id)`, then print the
progress line; on any other status print the error line.  A timeout or a
parse failure raises, carrying the events emitted so far. -/
def processCoordinate (oracle : Coordinate → Outcome) (c : Coordinate) :
    Except (PyError × List Event) (List Event) :=
  match oracle c with
  | Outcome.timeout => Except.error (PyError.timeoutError, [Event.post c])
  | Outcome.resp status dataField text =>
      if status = 200 then
        match dataField with
        | Except.error m => Except.error (PyError.parseError m, [Event.post c])
        | Except.ok rows =>
            Except.ok (Event.post c ::
              (rows.map fun r => Event.writeRow (JsonVal.str c.id :: r)) ++
              [Event.printFetch c.id])
      else
        Except.ok [Event.post c, Event.printErr c.lon c.lat status text]

/-- The whole `for` loop followed by the completion print.  An exception
in one iteration propagates, keeping the events already emitted. -/
def runLoop (oracle : Coordinate → Outcome) :
    List Coordinate → Except (PyError × List Event) (List Event)
  | [] => Except.ok [Event.printDone]
  | c :: cs =>
      match processCoordinate oracle c with
      | Except.error (e, evs) => Except.error (e, evs)
      | Except.ok evs =>
          match runLoop oracle cs with
          | Except.error (e, evs2) => Except.error (e, evs ++ evs2)
          | Except.ok evs2 => Except.ok (evs ++ evs2)

/-- The fixed CSV header row `['id','date','maxt_F','mint_F','pcpn_inches']`. -/
def headersRow : List JsonVal :=
  [JsonVal.str "id", JsonVal.str "date", JsonVal.str "maxt_F",
   JsonVal.str "mint_F", JsonVal.str "pcpn_inches"]

/-- `file_is_empty = not os.path.exists(file_path) or os.stat(file_path).st_size == 0`:
the artifact state is `none` (does not exist) or `some rows` (its rows). -/
def fileIsEmpty : Option (List (List JsonVal)) → Bool
  | none => true
  | some rows => rows.isEmpty

/-- `fetch_prism_daily_data`, given the initial artifact state, the remote
service oracle, and the imported coordinates: opens the artifact in append
mode, writes the header iff the artifact is new or empty, runs the loop,
and closes the artifact (also on exception).  Returns the event trace and
the uncaught exception, if any. -/
def fetch_prism_daily_data (initial : Option (List (List JsonVal)))
    (oracle : Coordinate → Outcome) (coords : List Coordinate) :
    List Event × Option PyError :=
  let headEvs : List Event :=
    if fileIsEmpty initial then [Event.writeRow headersRow] else []
  match runLoop oracle coords with
  | Except.ok evs => (Event.openAppend :: (headEvs ++ evs ++ [Event.close]), none)
  | Except.error (e, evs) =>
      (Event.openAppend :: (headEvs ++ evs ++ [Event.close]), some e)

/-- The rows written to the artifact by a trace, in order. -/
def writtenRows (tr : List Event) : List (List JsonVal) :=
  tr.filterMap fun e =>
    match e with
    | Event.writeRow r => some r
    | _ => none

/-- The artifact contents after the run: what was there before (append
mode) followed by the rows written. -/
def fileContents (initial : Option (List (List JsonVal))) (tr : List Event) :
    List (List JsonVal) :=
  (initial.getD []) ++ writtenRows tr

/-- Is this event the per-coordinate failure report print? -/
def isErrEvent : Event → Bool
  | Event.printErr _ _ _ _ => true
  | _ => false

/-- Is this event a remote query? -/
def isPostEvent : Event → Bool
  | Event.post _ => true
  | _ => false

/-- Is this event the completion print? -/
def isDoneEvent : Event → Bool
  | Event.printDone => true
  | _ => false

/-- Did the service answer this coordinate with status 200? -/
def coordSucceeds (oracle : Coordinate → Outcome) (c : Coordinate) : Bool :=
  match oracle c with
  | Outcome.resp status _ _ => status == 200
  | Outcome.timeout => false

/-- The parsed `data` rows the service returned for this coordinate. -/
def coordRows (oracle : Coordinate → Outcome) (c : Coordinate) :
    List (List JsonVal) :=
  match oracle c with
  | Outcome.resp _ (Except.ok rows) _ => rows
  | _ => []

/-- The coordinate's query does not raise: no timeout, and if the status
is 200 the body parses (`response.json()` is only called on status 200, so
a non-200 response never aborts, whatever its body). -/
def noAbort (oracle : Coordinate → Outcome) (c : Coordinate) : Bool :=
  match oracle c with
  | Outcome.timeout => false
  | Outcome.resp status dataField _ =>
      match dataField with
      | Except.ok _ => true
      | Except.error _ => !(status == 200)

/-- The status code the service returned for this coordinate (0 on timeout). -/
def statusOf (oracle : Coordinate → Outcome) (c : Coordinate) : Nat :=
  match oracle c with
  | Outcome.resp status _ _ => status
  | Outcome.timeout => 0

/-- The raw response body the service returned for this coordinate. -/
def textOf (oracle : Coordinate → Outcome) (c : Coordinate) : String :=
  match oracle c with
  | Outcome.resp _ _ text => text
  | Outcome.timeout => ""

/-! ### The coordinate loader `import_coordinates` -/

/-- A file in the `.coordinates` directory: its name and its rows as
`csv.DictReader` would parse them. -/
abbrev CsvFile : Type := String × List Coordinate

/-- The state of the `.coordinates` directory as `os.listdir` sees it:
missing (raises `FileNotFoundError`), unreadable (raises
`PermissionError`), or present with a listing. -/
inductive DirState where
  | missing
  | unreadable
  | present (files : List CsvFile)

/-- The exception escaping `import_coordinates`: `return csv_data_as_dict`
raises `UnboundLocalError` whenever the loop never assigned the variable. -/
inductive LoadException where
  | unboundLocal
  deriving DecidableEq

/-- Python's `str.endswith`, on the character sequences of the strings. -/
def pyEndsWith (s suffix : String) : Bool :=
  List.isSuffixOf suffix.data s.data

/-- The `for filename in os.listdir(...)` loop: each `.csv` file overwrites
`csv_data_as_dict` (the accumulator, `none` while still unassigned). -/
def importLoop : List CsvFile → Option (List Coordinate) → Option (List Coordinate)
  | [], acc => acc
  | f :: fs, acc =>
      importLoop fs (if pyEndsWith f.1 ".csv" then some f.2 else acc)

/-- `import_coordinates`: lists the directory, runs the assignment loop,
prints on `FileNotFoundError` / `PermissionError`, and then executes
`return csv_data_as_dict` — which raises `UnboundLocalError` whenever no
`.csv` file was read (including after either handled exception).  Returns
the console prints and the result. -/
def import_coordinates (d : DirState) :
    List String × Except LoadException (List Coordinate) :=
  match d with
  | DirState.missing =>
      (["Directory .coordinates not found."], Except.error LoadException.unboundLocal)
  | DirState.unreadable =>
      (["No permission to read directory .coordinates."],
       Except.error LoadException.unboundLocal)
  | DirState.present files =>
      match importLoop files none with
      | some rows => ([], Except.ok rows)
      | none => ([], Except.error LoadException.unboundLocal)

/-! ### The date-format check -/

/-- `re.fullmatch(r'\d\x7b4\x7d-\d\x7b2\x7d-\d\x7b2\x7d', s)` as a boolean:
exactly ten characters, digits in positions 0–3, 5–6 and 8–9, and dashes
in positions 4 and 7. -/
def dateInputValid (s : String) : Bool :=
  match s.data with
  | [y1, y2, y3, y4, d1, m1, m2, d2, a1, a2] =>
      y1.isDigit && y2.isDigit && y3.isDigit && y4.isDigit &&
      d1 == '-' && m1.isDigit && m2.isDigit && d2 == '-' &&
      a1.isDigit && a2.isDigit
  | _ => false

/-- The spec's wording of the accepted shape, for comparison: the string is
four digits, a dash, two digits, a dash, and two digits. -/
def specDateShape (s : String) : Prop :=
  ∃ y1 y2 y3 y4 m1 m2 d1 d2 : Char,
    s.data = [y1, y2, y3, y4, '-', m1, m2, '-', d1, d2] ∧
    y1.isDigit = true ∧ y2.isDigit = true ∧ y3.isDigit = true ∧
    y4.isDigit = true ∧ m1.isDigit = true ∧ m2.isDigit = true ∧
    d1.isDigit = true ∧ d2.isDigit = true

/-! ### The shape of non-aborting runs -/

/-- The events of a loop iteration that did not raise. -/
def okEvents (oracle : Coordinate → Outcome) (c : Coordinate) : List Event :=
  match processCoordinate oracle c with
  | Except.ok evs => evs
  | Except.error _ => []

/-- The events of a loop over coordinates none of which raises. -/
def loopEvents (oracle : Coordinate → Outcome) (coords : List Coordinate) :
    List Event :=
  (coords.map (okEvents oracle)).flatten ++ [Event.printDone]

lemma loopEvents_nil (oracle : Coordinate → Outcome) :
    loopEvents oracle [] = [Event.printDone] := rfl

lemma loopEvents_cons (oracle : Coordinate → Outcome) (c : Coordinate)
    (cs : List Coordinate) :
    loopEvents oracle (c :: cs) = okEvents oracle c ++ loopEvents oracle cs := by
  simp [loopEvents]

lemma noAbort_cases (oracle : Coordinate → Outcome) (c : Coordinate)
    (h : noAbort oracle c = true) :
    (∃ rows text, oracle c = Outcome.resp 200 (Except.ok rows) text) ∨
    (∃ status df text, oracle c = Outcome.resp status df text ∧ status ≠ 200) := by
  unfold noAbort at h
  cases hc : oracle c with
  | timeout => rw [hc] at h; exact absurd h (by simp)
  | resp status dataField text =>
      rw [hc] at h
      cases dataField with
      | error m =>
          simp only [Bool.not_eq_true', beq_eq_false_iff_ne, ne_eq] at h
          exact Or.inr ⟨status, Except.error m, text, rfl, h⟩
      | ok rows =>
          by_cases hs : status = 200
          · subst hs
            exact Or.inl ⟨rows, text, rfl⟩
          · exact Or.inr ⟨status, Except.ok rows, text, rfl, hs⟩

lemma processCoordinate_eq_ok (oracle : Coordinate → Outcome) (c : Coordinate)
    (h : noAbort oracle c = true) :
    processCoordinate oracle c = Except.ok (okEvents oracle c) := by
  rcases noAbort_cases oracle c h with ⟨rows, text, hc⟩ | ⟨status, df, text, hc, hs⟩
  · simp [processCoordinate, okEvents, hc]
  · simp [processCoordinate, okEvents, hc, hs]

lemma runLoop_eq_ok (oracle : Coordinate → Outcome) :
    ∀ coords : List Coordinate, (∀ c ∈ coords, noAbort oracle c = true) →
      runLoop oracle coords = Except.ok (loopEvents oracle coords) := by
  intro coords
  induction coords with
  | nil => intro _; simp [runLoop, loopEvents]
  | cons c cs ih =>
      intro h
      have hc : noAbort oracle c = true := h c (List.mem_cons_self c cs)
      have hcs := ih (fun x hx => h x (List.mem_cons_of_mem c hx))
      simp [runLoop, processCoordinate_eq_ok oracle c hc, hcs, loopEvents]

@[simp] lemma writtenRows_nil : writtenRows [] = [] := rfl

@[simp] lemma writtenRows_cons_writeRow (r : List JsonVal) (tr : List Event) :
    writtenRows (Event.writeRow r :: tr) = r :: writtenRows tr := rfl

@[simp] lemma writtenRows_cons_openAppend (tr : List Event) :
    writtenRows (Event.openAppend :: tr) = writtenRows tr := rfl

@[simp] lemma writtenRows_cons_post (c : Coordinate) (tr : List Event) :
    writtenRows (Event.post c :: tr) = writtenRows tr := rfl

@[simp] lemma writtenRows_cons_printFetch (i : String) (tr : List Event) :
    writtenRows (Event.printFetch i :: tr) = writtenRows tr := rfl

@[simp] lemma writtenRows_cons_printErr (lon lat : String) (status : Nat)
    (text : String) (tr : List Event) :
    writtenRows (Event.printErr lon lat status text :: tr) = writtenRows tr := rfl

@[simp] lemma writtenRows_cons_printDone (tr : List Event) :
    writtenRows (Event.printDone :: tr) = writtenRows tr := rfl

@[simp] lemma writtenRows_cons_flush (tr : List Event) :
    writtenRows (Event.flush :: tr) = writtenRows tr := rfl

@[simp] lemma writtenRows_cons_close (tr : List Event) :
    writtenRows (Event.close :: tr) = writtenRows tr := rfl

@[simp] lemma writtenRows_append (l1 l2 : List Event) :
    writtenRows (l1 ++ l2) = writtenRows l1 ++ writtenRows l2 := by
  simp [writtenRows, List.filterMap_append]

lemma writtenRows_map_writeRow (g : List JsonVal → List JsonVal) :
    ∀ rows : List (List JsonVal),
      writtenRows (rows.map fun r => Event.writeRow (g r)) = rows.map g
  | [] => rfl
  | r :: rs => by
      simp only [List.map_cons, writtenRows_cons_writeRow]
      exact congrArg (List.cons (g r)) (writtenRows_map_writeRow g rs)

lemma okEvents_writtenRows (oracle : Coordinate → Outcome) (c : Coordinate)
    (h : noAbort oracle c = true) :
    writtenRows (okEvents oracle c) =
      if coordSucceeds oracle c then
        (coordRows oracle c).map (fun r => JsonVal.str c.id :: r)
      else [] := by
  rcases noAbort_cases oracle c h with ⟨rows, text, hc⟩ | ⟨status, df, text, hc, hs⟩
  · simp [okEvents, processCoordinate, hc, coordSucceeds, coordRows,
      writtenRows_map_writeRow (fun r => JsonVal.str c.id :: r) rows]
  · simp [okEvents, processCoordinate, hc, coordSucceeds, coordRows, hs]

lemma okEvents_errCount (oracle : Coordinate → Outcome) (c : Coordinate)
    (h : noAbort oracle c = true) :
    ((okEvents oracle c).filter isErrEvent).length =
      if coordSucceeds oracle c then 0 else 1 := by
  rcases noAbort_cases oracle c h with ⟨rows, text, hc⟩ | ⟨status, df, text, hc, hs⟩
  · simp [okEvents, processCoordinate, hc, coordSucceeds, isErrEvent,
      List.filter_append, List.filter_map]
  · simp [okEvents, processCoordinate, hc, coordSucceeds, isErrEvent, hs]

lemma okEvents_errEvents (oracle : Coordinate → Outcome) (c : Coordinate)
    (h : noAbort oracle c = true) :
    (okEvents oracle c).filter isErrEvent =
      if coordSucceeds oracle c then []
      else [Event.printErr c.lon c.lat (statusOf oracle c) (textOf oracle c)] := by
  rcases noAbort_cases oracle c h with ⟨rows, text, hc⟩ | ⟨status, df, text, hc, hs⟩
  · simp [okEvents, processCoordinate, hc, coordSucceeds, isErrEvent,
      List.filter_append, List.filter_map]
  · simp [okEvents, processCoordinate, hc, coordSucceeds, isErrEvent,
      statusOf, textOf, hs]

lemma loopEvents_errEvents (oracle : Coordinate → Outcome) :
    ∀ coords : List Coordinate, (∀ c ∈ coords, noAbort oracle c = true) →
      (loopEvents oracle coords).filter isErrEvent =
        (coords.filter (fun c => !coordSucceeds oracle c)).map
          (fun c => Event.printErr c.lon c.lat (statusOf oracle c) (textOf oracle c)) := by
  intro coords
  induction coords with
  | nil => intro _; simp [loopEvents_nil, isErrEvent]
  | cons c cs ih =>
      intro h
      have hc : noAbort oracle c = true := h c (List.mem_cons_self c cs)
      have hcs := ih (fun x hx => h x (List.mem_cons_of_mem c hx))
      rw [loopEvents_cons, List.filter_append, hcs,
        okEvents_errEvents oracle c hc, List.filter_cons]
      by_cases hs : coordSucceeds oracle c
      · simp [hs]
      · simp [hs]

lemma okEvents_posts (oracle : Coordinate → Outcome) (c : Coordinate)
    (h : noAbort oracle c = true) :
    (okEvents oracle c).filter isPostEvent = [Event.post c] := by
  rcases noAbort_cases oracle c h with ⟨rows, text, hc⟩ | ⟨status, df, text, hc, hs⟩
  · simp [okEvents, processCoordinate, hc, isPostEvent,
      List.filter_append, List.filter_map]
  · simp [okEvents, processCoordinate, hc, isPostEvent, hs]

lemma loopEvents_writtenRows (oracle : Coordinate → Outcome) :
    ∀ coords : List Coordinate, (∀ c ∈ coords, noAbort oracle c = true) →
      writtenRows (loopEvents oracle coords) =
        ((coords.filter (coordSucceeds oracle)).map
          (fun c => (coordRows oracle c).map (fun r => JsonVal.str c.id :: r))).flatten := by
  intro coords
  induction coords with
  | nil => intro _; simp [loopEvents_nil]
  | cons c cs ih =>
      intro h
      have hc : noAbort oracle c = true := h c (List.mem_cons_self c cs)
      have hcs := ih (fun x hx => h x (List.mem_cons_of_mem c hx))
      rw [loopEvents_cons, writtenRows_append, hcs,
        okEvents_writtenRows oracle c hc, List.filter_cons]
      by_cases hs : coordSucceeds oracle c
      · simp [hs]
      · simp [hs]

lemma loopEvents_errCount (oracle : Coordinate → Outcome) :
    ∀ coords : List Coordinate, (∀ c ∈ coords, noAbort oracle c = true) →
      ((loopEvents oracle coords).filter isErrEvent).length =
        (coords.filter (fun c => !coordSucceeds oracle c)).length := by
  intro coords
  induction coords with
  | nil => intro _; simp [loopEvents_nil, isErrEvent]
  | cons c cs ih =>
      intro h
      have hc : noAbort oracle c = true := h c (List.mem_cons_self c cs)
      have hcs := ih (fun x hx => h x (List.mem_cons_of_mem c hx))
      rw [loopEvents_cons, List.filter_append, List.length_append, hcs,
        List.filter_cons]
      have herr := okEvents_errCount oracle c hc
      by_cases hs : coordSucceeds oracle c
      · simp [hs, herr]
      · simp [hs, herr]
        omega

lemma loopEvents_posts (oracle : Coordinate → Outcome) :
    ∀ coords : List Coordinate, (∀ c ∈ coords, noAbort oracle c = true) →
      (loopEvents oracle coords).filter isPostEvent = coords.map Event.post := by
  intro coords
  induction coords with
  | nil => intro _; simp [loopEvents_nil, isPostEvent]
  | cons c cs ih =>
      intro h
      have hc : noAbort oracle c = true := h c (List.mem_cons_self c cs)
      have hcs := ih (fun x hx => h x (List.mem_cons_of_mem c hx))
      rw [loopEvents_cons, List.filter_append, hcs, okEvents_posts oracle c hc]
      simp

lemma loopEvents_done (oracle : Coordinate → Outcome) (coords : List Coordinate) :
    Event.printDone ∈ loopEvents oracle coords := by
  simp [loopEvents]

/-- The events of the loop, whether or not it raised. -/
def runEvents (oracle : Coordinate → Outcome) (coords : List Coordinate) :
    List Event :=
  match runLoop oracle coords with
  | Except.ok evs => evs
  | Except.error (_, evs) => evs

/-- An event that is neither a remote query nor the completion print: the
trace before the first such event is the pre-loop part of the run. -/
def notQueryOrDone (e : Event) : Bool :=
  !isPostEvent e && !isDoneEvent e

/-- The rows written before the first coordinate is queried (or, when there
are no coordinates, before the run completes). -/
def preQueryWrites (tr : List Event) : List (List JsonVal) :=
  writtenRows (tr.takeWhile notQueryOrDone)

lemma fetch_fst (initial : Option (List (List JsonVal)))
    (oracle : Coordinate → Outcome) (coords : List Coordinate) :
    (fetch_prism_daily_data initial oracle coords).1 =
      Event.openAppend ::
        ((if fileIsEmpty initial then [Event.writeRow headersRow] else []) ++
          runEvents oracle coords ++ [Event.close]) := by
  cases hr : runLoop oracle coords with
  | ok evs => simp [fetch_prism_daily_data, runEvents, hr]
  | error p =>
      obtain ⟨e, evs⟩ := p
      simp [fetch_prism_daily_data, runEvents, hr]

lemma processCoordinate_head (oracle : Coordinate → Outcome) (c : Coordinate) :
    (∃ err, processCoordinate oracle c = Except.error (err, [Event.post c])) ∨
    (∃ t, processCoordinate oracle c = Except.ok (Event.post c :: t)) := by
  cases hc : oracle c with
  | timeout => exact Or.inl ⟨PyError.timeoutError, by simp [processCoordinate, hc]⟩
  | resp status df text =>
      by_cases hs : status = 200
      · subst hs
        cases df with
        | error m => exact Or.inl ⟨PyError.parseError m, by simp [processCoordinate, hc]⟩
        | ok rows =>
            exact Or.inr ⟨(rows.map fun r => Event.writeRow (JsonVal.str c.id :: r)) ++
              [Event.printFetch c.id], by simp [processCoordinate, hc]⟩
      · exact Or.inr ⟨[Event.printErr c.lon c.lat status text],
          by simp [processCoordinate, hc, hs]⟩

lemma runEvents_nil (oracle : Coordinate → Outcome) :
    runEvents oracle [] = [Event.printDone] := rfl

lemma runEvents_cons_head (oracle : Coordinate → Outcome) (c : Coordinate)
    (cs : List Coordinate) :
    ∃ t, runEvents oracle (c :: cs) = Event.post c :: t := by
  rcases processCoordinate_head oracle c with ⟨e, he⟩ | ⟨t, ht⟩
  · exact ⟨[], by simp [runEvents, runLoop, he]⟩
  · cases hr : runLoop oracle cs with
    | ok evs2 => exact ⟨t ++ evs2, by simp [runEvents, runLoop, ht, hr]⟩
    | error p =>
        obtain ⟨e2, evs2⟩ := p
        exact ⟨t ++ evs2, by simp [runEvents, runLoop, ht, hr]⟩

lemma fetch_eq_of_noAbort (initial : Option (List (List JsonVal)))
    (oracle : Coordinate → Outcome) (coords : List Coordinate)
    (h : ∀ c ∈ coords, noAbort oracle c = true) :
    fetch_prism_daily_data initial oracle coords =
      (Event.openAppend ::
        ((if fileIsEmpty initial then [Event.writeRow headersRow] else []) ++
          loopEvents oracle coords ++ [Event.close]), none) := by
  simp [fetch_prism_daily_data, runLoop_eq_ok oracle coords h]

/-! ### Claim theorems -/

/-- C1.  When every remote query returns a response whose body parses
(no timeout, no JSON parse failure), the run never aborts: it queries every
coordinate, writes the id-prefixed data rows of exactly the coordinates
whose status was 200, prints exactly one failure report per non-200
coordinate, and prints the completion notice. -/
theorem c1_failure_isolation (initial : Option (List (List JsonVal)))
    (oracle : Coordinate → Outcome) (coords : List Coordinate)
    (h : ∀ c ∈ coords, noAbort oracle c = true) :
    (fetch_prism_daily_data initial oracle coords).2 = none ∧
    Event.printDone ∈ (fetch_prism_daily_data initial oracle coords).1 ∧
    writtenRows (fetch_prism_daily_data initial oracle coords).1 =
      (if fileIsEmpty initial then [headersRow] else []) ++
        ((coords.filter (coordSucceeds oracle)).map
          (fun c => (coordRows oracle c).map (fun r => JsonVal.str c.id :: r))).flatten ∧
    ((fetch_prism_daily_data initial oracle coords).1.filter isErrEvent).length =
      (coords.filter (fun c => !coordSucceeds oracle c)).length ∧
    (fetch_prism_daily_data initial oracle coords).1.filter isPostEvent =
      coords.map Event.post := by
  have htr := fetch_eq_of_noAbort initial oracle coords h
  have hd := loopEvents_done oracle coords
  refine ⟨by rw [htr], ?_, ?_, ?_, ?_⟩
  · rw [htr]; by_cases hemp : fileIsEmpty initial <;> simp [hemp, hd]
  · rw [htr]
    by_cases hemp : fileIsEmpty initial <;>
      simp [hemp, loopEvents_writtenRows oracle coords h]
  · rw [htr]
    by_cases hemp : fileIsEmpty initial <;>
      simp [hemp, isErrEvent, List.filter_append,
        loopEvents_errCount oracle coords h]
  · rw [htr]
    by_cases hemp : fileIsEmpty initial <;>
      simp [hemp, isPostEvent, List.filter_append,
        loopEvents_posts oracle coords h]

/-- Witness for C1: a fresh artifact, coordinate A1 succeeding with one data
row and coordinate A2 failing with status 400. -/
theorem c1_failure_isolation_witness :
    (∀ c ∈ [(⟨"A1", "40.0", "-75.0"⟩ : Coordinate), ⟨"A2", "41.0", "-76.0"⟩],
      noAbort (fun c => if c.id = "A1" then
          Outcome.resp 200 (Except.ok [[JsonVal.str "2020-01-01",
            JsonVal.num 32 0, JsonVal.num 20 0, JsonVal.num 1 1]]) ""
        else Outcome.resp 400 (Except.ok []) "bad request") c = true) ∧
    ((fetch_prism_daily_data none
        (fun c => if c.id = "A1" then
          Outcome.resp 200 (Except.ok [[JsonVal.str "2020-01-01",
            JsonVal.num 32 0, JsonVal.num 20 0, JsonVal.num 1 1]]) ""
        else Outcome.resp 400 (Except.ok []) "bad request")
        [⟨"A1", "40.0", "-75.0"⟩, ⟨"A2", "41.0", "-76.0"⟩]).2 = none ∧
      Event.printDone ∈ (fetch_prism_daily_data none
        (fun c => if c.id = "A1" then
          Outcome.resp 200 (Except.ok [[JsonVal.str "2020-01-01",
            JsonVal.num 32 0, JsonVal.num 20 0, JsonVal.num 1 1]]) ""
        else Outcome.resp 400 (Except.ok []) "bad request")
        [⟨"A1", "40.0", "-75.0"⟩, ⟨"A2", "41.0", "-76.0"⟩]).1 ∧
      writtenRows (fetch_prism_daily_data none
        (fun c => if c.id = "A1" then
          Outcome.resp 200 (Except.ok [[JsonVal.str "2020-01-01",
            JsonVal.num 32 0, JsonVal.num 20 0, JsonVal.num 1 1]]) ""
        else Outcome.resp 400 (Except.ok []) "bad request")
        [⟨"A1", "40.0", "-75.0"⟩, ⟨"A2", "41.0", "-76.0"⟩]).1 =
        (if fileIsEmpty none then [headersRow] else []) ++
          (([(⟨"A1", "40.0", "-75.0"⟩ : Coordinate), ⟨"A2", "41.0", "-76.0"⟩].filter
            (coordSucceeds (fun c => if c.id = "A1" then
              Outcome.resp 200 (Except.ok [[JsonVal.str "2020-01-01",
                JsonVal.num 32 0, JsonVal.num 20 0, JsonVal.num 1 1]]) ""
            else Outcome.resp 400 (Except.ok []) "bad request"))).map
            (fun c => (coordRows (fun c => if c.id = "A1" then
              Outcome.resp 200 (Except.ok [[JsonVal.str "2020-01-01",
                JsonVal.num 32 0, JsonVal.num 20 0, JsonVal.num 1 1]]) ""
            else Outcome.resp 400 (Except.ok []) "bad request") c).map
              (fun r => JsonVal.str c.id :: r))).flatten ∧
      ((fetch_prism_daily_data none
        (fun c => if c.id = "A1" then
          Outcome.resp 200 (Except.ok [[JsonVal.str "2020-01-01",
            JsonVal.num 32 0, JsonVal.num 20 0, JsonVal.num 1 1]]) ""
        else Outcome.resp 400 (Except.ok []) "bad request")
        [⟨"A1", "40.0", "-75.0"⟩, ⟨"A2", "41.0", "-76.0"⟩]).1.filter isErrEvent).length =
        ([(⟨"A1", "40.0", "-75.0"⟩ : Coordinate), ⟨"A2", "41.0", "-76.0"⟩].filter
          (fun c => !coordSucceeds (fun c => if c.id = "A1" then
            Outcome.resp 200 (Except.ok [[JsonVal.str "2020-01-01",
              JsonVal.num 32 0, JsonVal.num 20 0, JsonVal.num 1 1]]) ""
          else Outcome.resp 400 (Except.ok []) "bad request") c)).length ∧
      (fetch_prism_daily_data none
        (fun c => if c.id = "A1" then
          Outcome.resp 200 (Except.ok [[JsonVal.str "2020-01-01",
            JsonVal.num 32 0, JsonVal.num 20 0, JsonVal.num 1 1]]) ""
        else Outcome.resp 400 (Except.ok []) "bad request")
        [⟨"A1", "40.0", "-75.0"⟩, ⟨"A2", "41.0", "-76.0"⟩]).1.filter isPostEvent =
        [(⟨"A1", "40.0", "-75.0"⟩ : Coordinate), ⟨"A2", "41.0", "-76.0"⟩].map Event.post) :=
  ⟨by decide,
   c1_failure_isolation none
     (fun c => if c.id = "A1" then
        Outcome.resp 200 (Except.ok [[JsonVal.str "2020-01-01",
          JsonVal.num 32 0, JsonVal.num 20 0, JsonVal.num 1 1]]) ""
      else Outcome.resp 400 (Except.ok []) "bad request")
     [⟨"A1", "40.0", "-75.0"⟩, ⟨"A2", "41.0", "-76.0"⟩] (by decide)⟩

/-- C2.  In every run, the first row of the artifact is the fixed header
when the artifact was newly created or empty (otherwise its first row is
the pre-existing first row), and the rows written before any coordinate is
queried are exactly one header row when the artifact was newly created or
empty, and nothing otherwise — independently of the coordinates processed. -/
theorem c2_header_invariant (initial : Option (List (List JsonVal)))
    (oracle : Coordinate → Outcome) (coords : List Coordinate) :
    (fileContents initial (fetch_prism_daily_data initial oracle coords).1).head? =
      (if fileIsEmpty initial then some headersRow else (initial.getD []).head?) ∧
    preQueryWrites (fetch_prism_daily_data initial oracle coords).1 =
      (if fileIsEmpty initial then [headersRow] else []) := by
  have hf := fetch_fst initial oracle coords
  constructor
  · rw [fileContents, hf]
    by_cases hemp : fileIsEmpty initial
    · have hnil : initial.getD [] = [] := by
        cases initial with
        | none => rfl
        | some rows =>
            cases rows with
            | nil => rfl
            | cons a l => simp [fileIsEmpty] at hemp
      simp [hemp, hnil]
    · have hne : initial.getD [] ≠ [] := by
        cases initial with
        | none => simp [fileIsEmpty] at hemp
        | some rows =>
            cases rows with
            | nil => simp [fileIsEmpty] at hemp
            | cons a l => simp
      simp [hemp, List.head?_append_of_ne_nil _ hne]
  · rw [hf]
    cases coords with
    | nil =>
        by_cases hemp : fileIsEmpty initial <;>
          simp [hemp, preQueryWrites, runEvents_nil, notQueryOrDone,
            isPostEvent, isDoneEvent, List.takeWhile]
    | cons c cs =>
        obtain ⟨t, ht⟩ := runEvents_cons_head oracle c cs
        rw [ht]
        by_cases hemp : fileIsEmpty initial <;>
          simp [hemp, preQueryWrites, notQueryOrDone,
            isPostEvent, isDoneEvent, List.takeWhile]

/-- C4.  The date check accepts a string iff it has the lexical shape
YYYY-MM-DD (four digits, dash, two digits, dash, two digits); it performs
no calendar check ("2023-99-99" passes), and "08-03-2023", "2023/08/03"
and "2023-8-3" are all rejected. -/
theorem c4_date_validation :
    (∀ s : String, dateInputValid s = true ↔ specDateShape s) ∧
    dateInputValid "2023-99-99" = true ∧
    dateInputValid "08-03-2023" = false ∧
    dateInputValid "2023/08/03" = false ∧
    dateInputValid "2023-8-3" = false := by
  refine ⟨fun s => ⟨fun hv => ?_, fun hs => ?_⟩, by decide, by decide, by decide, by decide⟩
  · unfold dateInputValid at hv
    split at hv
    · rename_i y1 y2 y3 y4 d1 m1 m2 d2 a1 a2 heq
      simp only [Bool.and_eq_true, beq_iff_eq, and_assoc] at hv
      obtain ⟨h1, h2, h3, h4, h5, h6, h7, h8, h9, h10⟩ := hv
      subst h5
      subst h8
      exact ⟨y1, y2, y3, y4, m1, m2, a1, a2, heq,
        h1, h2, h3, h4, h6, h7, h9, h10⟩
    · simp at hv
  · obtain ⟨y1, y2, y3, y4, m1, m2, d1, d2, heq,
      h1, h2, h3, h4, h5, h6, h7, h8⟩ := hs
    unfold dateInputValid
    rw [heq]
    simp [h1, h2, h3, h4, h5, h6, h7, h8]

/-- C5.  For a coordinate whose query succeeds with parsed data rows, the
run writes exactly one artifact row per returned day, each being the
coordinate's id prepended to the service row, in the order returned. -/
theorem c5_row_prefixing (initial : Option (List (List JsonVal)))
    (oracle : Coordinate → Outcome) (c : Coordinate)
    (rows : List (List JsonVal)) (text : String)
    (h : oracle c = Outcome.resp 200 (Except.ok rows) text) :
    writtenRows (fetch_prism_daily_data initial oracle [c]).1 =
      (if fileIsEmpty initial then [headersRow] else []) ++
        rows.map (fun r => JsonVal.str c.id :: r) := by
  have hna : ∀ x ∈ [c], noAbort oracle x = true := by
    intro x hx
    simp only [List.mem_singleton] at hx
    subst hx
    simp [noAbort, h]
  have hsucc : coordSucceeds oracle c = true := by simp [coordSucceeds, h]
  have hrows : coordRows oracle c = rows := by simp [coordRows, h]
  rw [fetch_eq_of_noAbort initial oracle [c] hna]
  by_cases hemp : fileIsEmpty initial <;>
    simp [hemp, loopEvents_writtenRows oracle [c] hna, hsucc, hrows,
      List.filter]

/-- Witness for C5: the spec's end-to-end scenario — coordinate A1,
service data for 2020-01-01 and 2020-01-02, a fresh artifact. -/
theorem c5_row_prefixing_witness :
    ((fun _ : Coordinate => Outcome.resp 200 (Except.ok
        [[JsonVal.str "2020-01-01", JsonVal.num 32 0, JsonVal.num 20 0, JsonVal.num 1 1],
         [JsonVal.str "2020-01-02", JsonVal.num 30 0, JsonVal.num 18 0, JsonVal.num 0 1]]) "")
      (⟨"A1", "40.0", "-75.0"⟩ : Coordinate) =
        Outcome.resp 200 (Except.ok
          [[JsonVal.str "2020-01-01", JsonVal.num 32 0, JsonVal.num 20 0, JsonVal.num 1 1],
           [JsonVal.str "2020-01-02", JsonVal.num 30 0, JsonVal.num 18 0, JsonVal.num 0 1]]) "") ∧
    writtenRows (fetch_prism_daily_data none
      (fun _ : Coordinate => Outcome.resp 200 (Except.ok
        [[JsonVal.str "2020-01-01", JsonVal.num 32 0, JsonVal.num 20 0, JsonVal.num 1 1],
         [JsonVal.str "2020-01-02", JsonVal.num 30 0, JsonVal.num 18 0, JsonVal.num 0 1]]) "")
      [⟨"A1", "40.0", "-75.0"⟩]).1 =
      (if fileIsEmpty none then [headersRow] else []) ++
        [[JsonVal.str "2020-01-01", JsonVal.num 32 0, JsonVal.num 20 0, JsonVal.num 1 1],
         [JsonVal.str "2020-01-02", JsonVal.num 30 0, JsonVal.num 18 0, JsonVal.num 0 1]].map
          (fun r => JsonVal.str (⟨"A1", "40.0", "-75.0"⟩ : Coordinate).id :: r) :=
  ⟨rfl,
   c5_row_prefixing none
     (fun _ : Coordinate => Outcome.resp 200 (Except.ok
        [[JsonVal.str "2020-01-01", JsonVal.num 32 0, JsonVal.num 20 0, JsonVal.num 1 1],
         [JsonVal.str "2020-01-02", JsonVal.num 30 0, JsonVal.num 18 0, JsonVal.num 0 1]]) "")
     ⟨"A1", "40.0", "-75.0"⟩
     [[JsonVal.str "2020-01-01", JsonVal.num 32 0, JsonVal.num 20 0, JsonVal.num 1 1],
      [JsonVal.str "2020-01-02", JsonVal.num 30 0, JsonVal.num 18 0, JsonVal.num 0 1]]
     "" rfl⟩

/-- C6 counterexample.  A run whose first coordinate times out while a
second coordinate is pending: the timeout is not treated like a non-200
response — the run raises (`some timeoutError`), no failure report is
printed, the second coordinate is never queried, and the completion notice
is never printed.  This refutes the claim that a timeout is reported,
skipped, and the pipeline continues. -/
theorem c6_counterexample_timeout :
    ((fetch_prism_daily_data none
        (fun c => if c.id = "T1" then Outcome.timeout
          else Outcome.resp 200 (Except.ok []) "")
        [⟨"T1", "40.0", "-75.0"⟩, ⟨"U2", "41.0", "-76.0"⟩]).2 =
      some PyError.timeoutError) ∧
    Event.post ⟨"U2", "41.0", "-76.0"⟩ ∉
      (fetch_prism_daily_data none
        (fun c => if c.id = "T1" then Outcome.timeout
          else Outcome.resp 200 (Except.ok []) "")
        [⟨"T1", "40.0", "-75.0"⟩, ⟨"U2", "41.0", "-76.0"⟩]).1 ∧
    Event.printDone ∉
      (fetch_prism_daily_data none
        (fun c => if c.id = "T1" then Outcome.timeout
          else Outcome.resp 200 (Except.ok []) "")
        [⟨"T1", "40.0", "-75.0"⟩, ⟨"U2", "41.0", "-76.0"⟩]).1 ∧
    ((fetch_prism_daily_data none
        (fun c => if c.id = "T1" then Outcome.timeout
          else Outcome.resp 200 (Except.ok []) "")
        [⟨"T1", "40.0", "-75.0"⟩, ⟨"U2", "41.0", "-76.0"⟩]).1.filter isErrEvent) = [] := by
  decide

/-- C6 amended.  A per-coordinate timeout is not handled: the
`requests.Timeout` exception propagates out of the loop, so the run aborts
with no failure report for that coordinate, no further queries, and no
completion notice (only the coordinates before it were processed). -/
theorem c6_timeout_aborts (initial : Option (List (List JsonVal)))
    (oracle : Coordinate → Outcome) (c : Coordinate) (rest : List Coordinate)
    (h : oracle c = Outcome.timeout) :
    fetch_prism_daily_data initial oracle (c :: rest) =
      (Event.openAppend ::
        ((if fileIsEmpty initial then [Event.writeRow headersRow] else []) ++
          [Event.post c, Event.close]), some PyError.timeoutError) ∧
    Event.printDone ∉ (fetch_prism_daily_data initial oracle (c :: rest)).1 ∧
    ((fetch_prism_daily_data initial oracle (c :: rest)).1.filter isErrEvent) = [] ∧
    ((fetch_prism_daily_data initial oracle (c :: rest)).1.filter isPostEvent) =
      [Event.post c] := by
  have hp : processCoordinate oracle c =
      Except.error (PyError.timeoutError, [Event.post c]) := by
    simp [processCoordinate, h]
  have hrun : runLoop oracle (c :: rest) =
      Except.error (PyError.timeoutError, [Event.post c]) := by
    simp [runLoop, hp]
  refine ⟨?_, ?_, ?_, ?_⟩ <;>
    by_cases hemp : fileIsEmpty initial <;>
      simp [fetch_prism_daily_data, hrun, hemp, isErrEvent, isPostEvent]

/-- Witness for the amended C6: a one-coordinate run that times out. -/
theorem c6_timeout_aborts_witness :
    ((fun _ : Coordinate => Outcome.timeout) (⟨"T1", "40.0", "-75.0"⟩ : Coordinate) =
      Outcome.timeout) ∧
    (fetch_prism_daily_data none (fun _ : Coordinate => Outcome.timeout)
        [⟨"T1", "40.0", "-75.0"⟩] =
      (Event.openAppend ::
        ((if fileIsEmpty none then [Event.writeRow headersRow] else []) ++
          [Event.post ⟨"T1", "40.0", "-75.0"⟩, Event.close]),
       some PyError.timeoutError) ∧
     Event.printDone ∉ (fetch_prism_daily_data none
        (fun _ : Coordinate => Outcome.timeout) [⟨"T1", "40.0", "-75.0"⟩]).1 ∧
     ((fetch_prism_daily_data none (fun _ : Coordinate => Outcome.timeout)
        [⟨"T1", "40.0", "-75.0"⟩]).1.filter isErrEvent) = [] ∧
     ((fetch_prism_daily_data none (fun _ : Coordinate => Outcome.timeout)
        [⟨"T1", "40.0", "-75.0"⟩]).1.filter isPostEvent) =
       [Event.post ⟨"T1", "40.0", "-75.0"⟩]) :=
  ⟨rfl,
   c6_timeout_aborts none (fun _ : Coordinate => Outcome.timeout)
     ⟨"T1", "40.0", "-75.0"⟩ [] rfl⟩

/-- C7 counterexample.  A coordinate with id "Z9" fails with status 400 and
body "bad request".  The one failure report printed is
`Error for coordinates -75.0, 40.0: 400, bad request`: it contains the
longitude, latitude, status and raw body, but the identifier "Z9" occurs
nowhere in it — refuting the claim that the failure carries the
coordinate's identifier. -/
theorem c7_counterexample_missing_id :
    ((fetch_prism_daily_data none
        (fun _ : Coordinate => Outcome.resp 400 (Except.ok []) "bad request")
        [⟨"Z9", "40.0", "-75.0"⟩]).1.filter isErrEvent =
      [Event.printErr "-75.0" "40.0" 400 "bad request"]) ∧
    renderEvent (Event.printErr "-75.0" "40.0" 400 "bad request") =
      some "Error for coordinates -75.0, 40.0: 400, bad request" ∧
    ¬ ("Z9".data <:+: "Error for coordinates -75.0, 40.0: 400, bad request".data) ∧
    ("-75.0".data <:+: "Error for coordinates -75.0, 40.0: 400, bad request".data) ∧
    ("40.0".data <:+: "Error for coordinates -75.0, 40.0: 400, bad request".data) ∧
    ("400".data <:+: "Error for coordinates -75.0, 40.0: 400, bad request".data) ∧
    ("bad request".data <:+: "Error for coordinates -75.0, 40.0: 400, bad request".data) := by
  refine ⟨by decide, ?_, by decide, by decide, by decide, by decide, by decide⟩
  rfl

/-- C7 amended.  On a non-200 response the failure report is the print
event carrying the coordinate's longitude, latitude, the status code and
the raw error body — and nothing else (in particular, not the
coordinate's identifier); the run continues past it. -/
theorem c7_error_report_fields (initial : Option (List (List JsonVal)))
    (oracle : Coordinate → Outcome) (coords : List Coordinate)
    (h : ∀ c ∈ coords, noAbort oracle c = true) :
    (fetch_prism_daily_data initial oracle coords).1.filter isErrEvent =
      (coords.filter (fun c => !coordSucceeds oracle c)).map
        (fun c => Event.printErr c.lon c.lat (statusOf oracle c) (textOf oracle c)) ∧
    (fetch_prism_daily_data initial oracle coords).2 = none := by
  have htr := fetch_eq_of_noAbort initial oracle coords h
  refine ⟨?_, by rw [htr]⟩
  rw [htr]
  by_cases hemp : fileIsEmpty initial <;>
    simp [hemp, isErrEvent, List.filter_append,
      loopEvents_errEvents oracle coords h]

/-- Witness for the amended C7: one coordinate failing with status 400. -/
theorem c7_error_report_fields_witness :
    (∀ c ∈ [(⟨"Z9", "40.0", "-75.0"⟩ : Coordinate)],
      noAbort (fun _ : Coordinate => Outcome.resp 400 (Except.ok []) "bad request") c = true) ∧
    ((fetch_prism_daily_data none
        (fun _ : Coordinate => Outcome.resp 400 (Except.ok []) "bad request")
        [⟨"Z9", "40.0", "-75.0"⟩]).1.filter isErrEvent =
      ([(⟨"Z9", "40.0", "-75.0"⟩ : Coordinate)].filter
        (fun c => !coordSucceeds
          (fun _ : Coordinate => Outcome.resp 400 (Except.ok []) "bad request") c)).map
        (fun c => Event.printErr c.lon c.lat
          (statusOf (fun _ : Coordinate => Outcome.resp 400 (Except.ok []) "bad request") c)
          (textOf (fun _ : Coordinate => Outcome.resp 400 (Except.ok []) "bad request") c)) ∧
     (fetch_prism_daily_data none
        (fun _ : Coordinate => Outcome.resp 400 (Except.ok []) "bad request")
        [⟨"Z9", "40.0", "-75.0"⟩]).2 = none) :=
  ⟨by decide,
   c7_error_report_fields none
     (fun _ : Coordinate => Outcome.resp 400 (Except.ok []) "bad request")
     [⟨"Z9", "40.0", "-75.0"⟩] (by decide)⟩

lemma importLoop_append (l1 l2 : List CsvFile) (acc : Option (List Coordinate)) :
    importLoop (l1 ++ l2) acc = importLoop l2 (importLoop l1 acc) := by
  induction l1 generalizing acc with
  | nil => rfl
  | cons f fs ih => simp [importLoop, ih]

lemma importLoop_no_csv (files : List CsvFile)
    (h : ∀ f ∈ files, pyEndsWith f.1 ".csv" = false) :
    ∀ acc : Option (List Coordinate), importLoop files acc = acc := by
  induction files with
  | nil => intro acc; rfl
  | cons f fs ih =>
      intro acc
      have hf : pyEndsWith f.1 ".csv" = false := h f (List.mem_cons_self f fs)
      rw [importLoop, hf]
      exact ih (fun x hx => h x (List.mem_cons_of_mem f hx)) acc

/-- C3 counterexample.  Two matching files `a.csv` (one row, id A1) and
`b.csv` (one row, id B1): the loader returns only `b.csv`'s rows, not the
ordered union of both files' rows — each `.csv` file overwrites
`csv_data_as_dict` instead of extending it. -/
theorem c3_counterexample_union :
    import_coordinates (DirState.present
      [("a.csv", [⟨"A1", "40.0", "-75.0"⟩]), ("b.csv", [⟨"B1", "41.0", "-76.0"⟩])]) =
      ([], Except.ok [⟨"B1", "41.0", "-76.0"⟩]) ∧
    ([(⟨"B1", "41.0", "-76.0"⟩ : Coordinate)] ≠
      [⟨"A1", "40.0", "-75.0"⟩, ⟨"B1", "41.0", "-76.0"⟩]) :=
  ⟨rfl, by decide⟩

/-- C3 amended.  The loader returns exactly the rows of the last listed
matching file (rows of earlier matching files are discarded, not
appended); those rows are passed through verbatim, so duplicate ids are
not deduplicated. -/
theorem c3_last_file_wins (pre : List CsvFile) (name : String)
    (rows : List Coordinate) (post : List CsvFile)
    (hname : pyEndsWith name ".csv" = true)
    (hpost : ∀ f ∈ post, pyEndsWith f.1 ".csv" = false) :
    import_coordinates (DirState.present (pre ++ (name, rows) :: post)) =
      ([], Except.ok rows) := by
  have hloop : importLoop (pre ++ (name, rows) :: post) none = some rows := by
    rw [importLoop_append pre ((name, rows) :: post) none, importLoop, hname,
      importLoop_no_csv post hpost]
    simp
  simp [import_coordinates, hloop]

/-- Witness for the amended C3: an earlier matching file, a last matching
file whose rows contain a duplicate id, and a trailing non-matching file. -/
theorem c3_last_file_wins_witness :
    pyEndsWith "b.csv" ".csv" = true ∧
    (∀ f ∈ [(("notes.txt", []) : CsvFile)], pyEndsWith f.1 ".csv" = false) ∧
    import_coordinates (DirState.present
      ([("a.csv", [⟨"A1", "40.0", "-75.0"⟩])] ++
        ("b.csv", [⟨"B1", "41.0", "-76.0"⟩, ⟨"B1", "42.0", "-77.0"⟩]) ::
        [("notes.txt", [])])) =
      ([], Except.ok [⟨"B1", "41.0", "-76.0"⟩, ⟨"B1", "42.0", "-77.0"⟩]) :=
  ⟨by decide, by decide,
   c3_last_file_wins [("a.csv", [⟨"A1", "40.0", "-75.0"⟩])] "b.csv"
     [⟨"B1", "41.0", "-76.0"⟩, ⟨"B1", "42.0", "-77.0"⟩] [("notes.txt", [])]
     (by decide) (by decide)⟩

/-- C8 counterexample.  A directory that exists but holds no matching file:
the loader does not return an empty (non-error) result — the final
`return csv_data_as_dict` raises `UnboundLocalError` because the loop never
assigned the variable. -/
theorem c8_counterexample_empty :
    import_coordinates (DirState.present [("notes.txt", [])]) =
      ([], Except.error LoadException.unboundLocal) ∧
    ∀ rows : List Coordinate,
      import_coordinates (DirState.present [("notes.txt", [])]) ≠
        ([], Except.ok rows) := by
  refine ⟨rfl, fun rows h => ?_⟩
  rw [show import_coordinates (DirState.present [("notes.txt", [])]) =
    ([], Except.error LoadException.unboundLocal) from rfl] at h
  simp at h

/-- C8 amended.  The loader never surfaces `FileNotFoundError` or
`PermissionError` (it catches them and prints a diagnostic), and it never
returns an empty result for a location without matching files: in all
three cases — missing location, unreadable location, no matching files —
the function ends in an `UnboundLocalError`. -/
theorem c8_loader_failure_modes (files : List CsvFile)
    (h : ∀ f ∈ files, pyEndsWith f.1 ".csv" = false) :
    import_coordinates DirState.missing =
      (["Directory .coordinates not found."],
       Except.error LoadException.unboundLocal) ∧
    import_coordinates DirState.unreadable =
      (["No permission to read directory .coordinates."],
       Except.error LoadException.unboundLocal) ∧
    import_coordinates (DirState.present files) =
      ([], Except.error LoadException.unboundLocal) := by
  refine ⟨rfl, rfl, ?_⟩
  simp [import_coordinates, importLoop_no_csv files h]

/-- Witness for the amended C8: a directory holding only `notes.txt`. -/
theorem c8_loader_failure_modes_witness :
    (∀ f ∈ [(("notes.txt", []) : CsvFile)], pyEndsWith f.1 ".csv" = false) ∧
    (import_coordinates DirState.missing =
      (["Directory .coordinates not found."],
       Except.error LoadException.unboundLocal) ∧
     import_coordinates DirState.unreadable =
      (["No permission to read directory .coordinates."],
       Except.error LoadException.unboundLocal) ∧
     import_coordinates (DirState.present [("notes.txt", [])]) =
      ([], Except.error LoadException.unboundLocal)) :=
  ⟨by decide, c8_loader_failure_modes [("notes.txt", [])] (by decide)⟩

/-! ### Flush discipline (C9) -/

/-- Scan a trace tracking whether some written row is still uncommitted
(no `flush`/`close` since it was written); fails if a query is issued while
uncommitted rows exist. -/
def flushedScan : List Event → Bool → Bool
  | [], _ => true
  | Event.writeRow _ :: r, _ => flushedScan r true
  | Event.flush :: r, _ => flushedScan r false
  | Event.close :: r, _ => flushedScan r false
  | Event.post _ :: r, d => !d && flushedScan r d
  | _ :: r, d => flushedScan r d

/-- The spec's flush discipline, as a trace property: every row written for
one coordinate is flushed before the next coordinate's query is issued. -/
def specFlushedEachCoordinate (tr : List Event) : Bool :=
  flushedScan tr false

/-- The events of one loop iteration, raised or not. -/
def procEvents (oracle : Coordinate → Outcome) (c : Coordinate) : List Event :=
  match processCoordinate oracle c with
  | Except.ok evs => evs
  | Except.error (_, evs) => evs

lemma runEvents_cons_eq (oracle : Coordinate → Outcome) (c : Coordinate)
    (cs : List Coordinate) :
    runEvents oracle (c :: cs) = procEvents oracle c ∨
    runEvents oracle (c :: cs) = procEvents oracle c ++ runEvents oracle cs := by
  cases hp : processCoordinate oracle c with
  | error p =>
      obtain ⟨e, evs⟩ := p
      left
      simp [runEvents, runLoop, hp, procEvents]
  | ok evs =>
      right
      cases hr : runLoop oracle cs with
      | ok evs2 => simp [runEvents, runLoop, hp, hr, procEvents]
      | error p =>
          obtain ⟨e2, evs2⟩ := p
          simp [runEvents, runLoop, hp, hr, procEvents]

lemma flush_notin_procEvents (oracle : Coordinate → Outcome) (c : Coordinate) :
    Event.flush ∉ procEvents oracle c := by
  cases hc : oracle c with
  | timeout => simp [procEvents, processCoordinate, hc]
  | resp status df text =>
      by_cases hs : status = 200
      · subst hs
        cases df with
        | error m => simp [procEvents, processCoordinate, hc]
        | ok rows => simp [procEvents, processCoordinate, hc]
      · simp [procEvents, processCoordinate, hc, hs]

lemma flush_notin_runEvents (oracle : Coordinate → Outcome) :
    ∀ coords : List Coordinate, Event.flush ∉ runEvents oracle coords := by
  intro coords
  induction coords with
  | nil => simp [runEvents_nil]
  | cons c cs ih =>
      rcases runEvents_cons_eq oracle c cs with h | h
      · rw [h]
        exact flush_notin_procEvents oracle c
      · rw [h]
        intro hmem
        rcases List.mem_append.mp hmem with h1 | h2
        · exact flush_notin_procEvents oracle c h1
        · exact ih h2

/-- C9 counterexample.  Two coordinates, each writing one row, over a
non-empty artifact: the checker for "each coordinate's rows are flushed
before the next coordinate is processed" fails on the actual trace (there
is no flush event at all, although rows were written), refuting the
claim's per-coordinate durability. -/
theorem c9_counterexample_noflush :
    specFlushedEachCoordinate
      (fetch_prism_daily_data (some [headersRow])
        (fun _ : Coordinate =>
          Outcome.resp 200 (Except.ok [[JsonVal.str "2020-01-01", JsonVal.num 1 0]]) "")
        [⟨"A1", "40.0", "-75.0"⟩, ⟨"A2", "41.0", "-76.0"⟩]).1 = false ∧
    Event.flush ∉
      (fetch_prism_daily_data (some [headersRow])
        (fun _ : Coordinate =>
          Outcome.resp 200 (Except.ok [[JsonVal.str "2020-01-01", JsonVal.num 1 0]]) "")
        [⟨"A1", "40.0", "-75.0"⟩, ⟨"A2", "41.0", "-76.0"⟩]).1 ∧
    writtenRows
      (fetch_prism_daily_data (some [headersRow])
        (fun _ : Coordinate =>
          Outcome.resp 200 (Except.ok [[JsonVal.str "2020-01-01", JsonVal.num 1 0]]) "")
        [⟨"A1", "40.0", "-75.0"⟩, ⟨"A2", "41.0", "-76.0"⟩]).1 ≠ [] := by
  decide

/-- C9 amended.  Writing is append-mode (the artifact is opened for append
at the start of the trace), but the program never flushes mid-run: the
only commit point is the close at the very end of the trace, so an
interruption mid-loop may lose every row the run has written, not only the
in-flight coordinate's. -/
theorem c9_append_no_flush (initial : Option (List (List JsonVal)))
    (oracle : Coordinate → Outcome) (coords : List Coordinate) :
    (fetch_prism_daily_data initial oracle coords).1.head? = some Event.openAppend ∧
    Event.flush ∉ (fetch_prism_daily_data initial oracle coords).1 ∧
    (fetch_prism_daily_data initial oracle coords).1.getLast? = some Event.close := by
  have hf := fetch_fst initial oracle coords
  refine ⟨by rw [hf]; rfl, ?_, ?_⟩
  · rw [hf]
    by_cases hemp : fileIsEmpty initial <;>
      simp [hemp, flush_notin_runEvents oracle coords]
  · rw [hf]
    have hsplit : Event.openAppend ::
        ((if fileIsEmpty initial then [Event.writeRow headersRow] else []) ++
          runEvents oracle coords ++ [Event.close]) =
        (Event.openAppend ::
          ((if fileIsEmpty initial then [Event.writeRow headersRow] else []) ++
            runEvents oracle coords)) ++ [Event.close] := by
      simp
    rw [hsplit, List.getLast?_concat]

/-- C10.  A 200 response whose body fails to parse (not JSON, or no `data`
key) is not isolated: the exception aborts the whole run — later
coordinates are never queried, no further rows are written, and the
completion notice is never printed. -/
theorem c10_parse_error_aborts (initial : Option (List (List JsonVal)))
    (oracle : Coordinate → Outcome) (c : Coordinate) (rest : List Coordinate)
    (m text : String)
    (h : oracle c = Outcome.resp 200 (Except.error m) text) :
    fetch_prism_daily_data initial oracle (c :: rest) =
      (Event.openAppend ::
        ((if fileIsEmpty initial then [Event.writeRow headersRow] else []) ++
          [Event.post c, Event.close]), some (PyError.parseError m)) ∧
    Event.printDone ∉ (fetch_prism_daily_data initial oracle (c :: rest)).1 ∧
    ((fetch_prism_daily_data initial oracle (c :: rest)).1.filter isPostEvent) =
      [Event.post c] ∧
    writtenRows (fetch_prism_daily_data initial oracle (c :: rest)).1 =
      (if fileIsEmpty initial then [headersRow] else []) := by
  have hp : processCoordinate oracle c =
      Except.error (PyError.parseError m, [Event.post c]) := by
    simp [processCoordinate, h]
  have hrun : runLoop oracle (c :: rest) =
      Except.error (PyError.parseError m, [Event.post c]) := by
    simp [runLoop, hp]
  refine ⟨?_, ?_, ?_, ?_⟩ <;>
    by_cases hemp : fileIsEmpty initial <;>
      simp [fetch_prism_daily_data, hrun, hemp, isPostEvent]

/-- Witness for C10: a 200 response with a non-JSON body, one further
coordinate pending. -/
theorem c10_parse_error_aborts_witness :
    ((fun _ : Coordinate =>
        Outcome.resp 200 (Except.error "No JSON object could be decoded") "not json")
      (⟨"A1", "40.0", "-75.0"⟩ : Coordinate) =
        Outcome.resp 200 (Except.error "No JSON object could be decoded") "not json") ∧
    (fetch_prism_daily_data none
        (fun _ : Coordinate =>
          Outcome.resp 200 (Except.error "No JSON object could be decoded") "not json")
        [⟨"A1", "40.0", "-75.0"⟩, ⟨"B2", "41.0", "-76.0"⟩] =
      (Event.openAppend ::
        ((if fileIsEmpty none then [Event.writeRow headersRow] else []) ++
          [Event.post ⟨"A1", "40.0", "-75.0"⟩, Event.close]),
       some (PyError.parseError "No JSON object could be decoded")) ∧
     Event.printDone ∉ (fetch_prism_daily_data none
        (fun _ : Coordinate =>
          Outcome.resp 200 (Except.error "No JSON object could be decoded") "not json")
        [⟨"A1", "40.0", "-75.0"⟩, ⟨"B2", "41.0", "-76.0"⟩]).1 ∧
     ((fetch_prism_daily_data none
        (fun _ : Coordinate =>
          Outcome.resp 200 (Except.error "No JSON object could be decoded") "not json")
        [⟨"A1", "40.0", "-75.0"⟩, ⟨"B2", "41.0", "-76.0"⟩]).1.filter isPostEvent) =
       [Event.post ⟨"A1", "40.0", "-75.0"⟩] ∧
     writtenRows (fetch_prism_daily_data none
        (fun _ : Coordinate =>
          Outcome.resp 200 (Except.error "No JSON object could be decoded") "not json")
        [⟨"A1", "40.0", "-75.0"⟩, ⟨"B2", "41.0", "-76.0"⟩]).1 =
       (if fileIsEmpty none then [headersRow] else [])) :=
  ⟨rfl,
   c10_parse_error_aborts none
     (fun _ : Coordinate =>
       Outcome.resp 200 (Except.error "No JSON object could be decoded") "not json")
     ⟨"A1", "40.0", "-75.0"⟩ [⟨"B2", "41.0", "-76.0"⟩]
     "No JSON object could be decoded" "not json" rfl⟩

end Prism
